import Mathlib

/-!
Shallow embedding of the Weather-Data-System repository.

Python datetimes are modelled as natural numbers of microseconds since the
Unix epoch (midnight of a Thursday), SQL tables as lists of records, raised
exceptions as `Except.error`, and the external collaborators (HTTP transport,
database engine failures, the pydantic validator, the engine's `stddev`
aggregate) as explicit oracle parameters.
-/

namespace WeatherSpec

/-- Microseconds per second. -/
def usPerSec : Nat := 1000000

/-- Microseconds per hour (`timedelta(hours=1)`), 3600 seconds. -/
def usPerHour : Nat := 3600000000

/-- Microseconds per day (`timedelta(days=1)`), 24 hours. -/
def usPerDay : Nat := 86400000000

/-- `t.replace(hour=0, minute=0, second=0, microsecond=0)`: truncate to midnight. -/
def replaceMidnight (t : Nat) : Nat := t / usPerDay * usPerDay

/-- Python `datetime.weekday()`: Monday is 0.  The Unix epoch day was a Thursday,
hence the offset 3. -/
def weekday (t : Nat) : Nat := (t / usPerDay + 3) % 7

/-- `date_range` from `src/db_utils.py`: the pair of `start_date` and
`start_date + timedelta(days=days, hours=hours)`. -/
def date_range (start_date : Nat) (days : Nat) (hours : Nat) : Nat × Nat :=
  (start_date, start_date + (days * usPerDay + hours * usPerHour))

/-- `parse_date_filter` from `src/db_utils.py`.  `now` is `datetime.now()`;
`selected_hour` is the datetime parsed by `strptime` from the interactive
input on the `"selected_hour"` branch.  An unrecognised filter raises
`ValueError("Invalid date filter")`, modelled as `Except.error`. -/
def parse_date_filter (date_filter : String) (now : Nat) (selected_hour : Nat) :
    Except String (Nat × Nat) :=
  if date_filter = "selected_hour" then
    .ok (date_range selected_hour 0 1)
  else if date_filter = "today" then
    .ok (date_range (replaceMidnight now) 1 0)
  else if date_filter = "yesterday" then
    .ok (date_range (replaceMidnight (now - usPerDay)) 1 0)
  else if date_filter = "current_week" then
    .ok (date_range (replaceMidnight (now - weekday now * usPerDay)) 7 0)
  else if date_filter = "last_seven_days" then
    .ok (date_range (replaceMidnight (now + usPerDay) - 7 * usPerDay) 7 0)
  else
    .error "Invalid date filter"

/-- The `WeatherData` SQLModel row from `src/aws/aws_lambda.py` (the `id`
primary key is assigned by the database and plays no role in any claim;
`temperature` floats are modelled as rationals). -/
structure WeatherData where
  country : String
  city : String
  temperature : Rat
  rain_presence : Bool
  weather_description : String
  weather_data_date : Nat
  deriving DecidableEq

/-- The WHERE clause shared by all reporting queries:
`weather_data_date >= start_date, weather_data_date < end_date`. -/
def inWindow (start_date end_date : Nat) (r : WeatherData) : Bool :=
  decide (start_date ≤ r.weather_data_date) && decide (r.weather_data_date < end_date)

/-- The SQL `max` aggregate over a (nonempty) group's values. -/
def aggMax : List Rat → Rat
  | [] => 0
  | x :: xs => xs.foldl max x

/-- The SQL `min` aggregate over a (nonempty) group's values. -/
def aggMin : List Rat → Rat
  | [] => 0
  | x :: xs => xs.foldl min x

/-- The `temperature` values of the rows of `rows` falling in the GROUP BY
group keyed by `g` under grouping column `f`. -/
def groupTemps (rows : List WeatherData) (f : WeatherData → String) (g : String) : List Rat :=
  (rows.filter (fun r => f r == g)).map (fun r => r.temperature)

/-- `DatabaseManager.query_stats` from `src/db_utils.py`: parse the date
filter, then run
`SELECT group_by, max(temperature), min(temperature), stddev(temperature)
 WHERE start <= weather_data_date < end GROUP BY group_by`
against the table.  The engine's `stddev` aggregate is an external
collaborator, passed as the parameter `stddev`; `getattr(model, field)` is the
selector `group_by`. -/
def query_stats (stddev : List Rat → Rat) (table : List WeatherData)
    (group_by : WeatherData → String) (date_filter : String) (now selected_hour : Nat) :
    Except String (List (String × Rat × Rat × Rat)) := do
  let (start_date, end_date) ← parse_date_filter date_filter now selected_hour
  let rows := table.filter (inWindow start_date end_date)
  let keys := (rows.map group_by).dedup
  return keys.map (fun g =>
    (g, aggMax (groupTemps rows group_by g), aggMin (groupTemps rows group_by g),
      stddev (groupTemps rows group_by g)))

/-- `DatabaseManager.get_cities_stats`: `query_stats` grouped by `city`. -/
def get_cities_stats (stddev : List Rat → Rat) (table : List WeatherData)
    (date_filter : String) (now selected_hour : Nat) :
    Except String (List (String × Rat × Rat × Rat)) :=
  query_stats stddev table (fun r => r.city) date_filter now selected_hour

/-- `DatabaseManager.get_countries_stats`: `query_stats` grouped by `country`. -/
def get_countries_stats (stddev : List Rat → Rat) (table : List WeatherData)
    (date_filter : String) (now selected_hour : Nat) :
    Except String (List (String × Rat × Rat × Rat)) :=
  query_stats stddev table (fun r => r.country) date_filter now selected_hour

/-- `ORDER BY key ASC` followed by `.first()`: the first row attaining the
minimal key, `none` on an empty result set. -/
def firstAsc (key : α → Rat) : List α → Option α
  | [] => none
  | x :: xs => some (xs.foldl (fun b y => if key y < key b then y else b) x)

/-- `ORDER BY key DESC` followed by `.first()`: the first row attaining the
maximal key, `none` on an empty result set. -/
def firstDesc (key : α → Rat) : List α → Option α
  | [] => none
  | x :: xs => some (xs.foldl (fun b y => if key y > key b then y else b) x)

/-- `DatabaseManager.get_temperature_extremes` from `src/db_utils.py`:
per-city `max(temperature)` ordered descending when `temp_extreme == 'max'`,
otherwise per-city `min(temperature)` ordered ascending; `.first()` of the
grouped, ordered result. -/
def get_temperature_extremes (table : List WeatherData) (date_filter temp_extreme : String)
    (now selected_hour : Nat) : Except String (Option (String × Rat)) := do
  let (start_date, end_date) ← parse_date_filter date_filter now selected_hour
  let rows := table.filter (inWindow start_date end_date)
  let keys := (rows.map (fun r => r.city)).dedup
  let grouped := keys.map (fun c =>
    (c, if temp_extreme = "max" then aggMax (groupTemps rows (fun r => r.city) c)
        else aggMin (groupTemps rows (fun r => r.city) c)))
  return (if temp_extreme = "max" then firstDesc (fun p => p.2) grouped
          else firstAsc (fun p => p.2) grouped)

/-- `DatabaseManager.count_rain_hours` from `src/db_utils.py`:
`SELECT count(*) WHERE start <= weather_data_date < end AND rain_presence == True`. -/
def count_rain_hours (table : List WeatherData) (date_filter : String)
    (now selected_hour : Nat) : Except String Nat := do
  let (start_date, end_date) ← parse_date_filter date_filter now selected_hour
  return (table.filter (fun r => inWindow start_date end_date r && r.rain_presence)).length

/-- The fields `get_weather` reads from the provider's JSON response; `none`
models a missing key (reading it with `[...]` raises `KeyError`; `rain` is
read with `.get`, which does not raise). -/
structure ApiJson where
  main_temp : Option Rat
  weather_descr : Option String
  rain_1h : Option Rat
  dt : Option Nat
  sys_country : Option String

/-- The outcome of the one `requests.get` call in `get_weather`: an HTTP
response with a status code and JSON body, or a raised
`requests.RequestException`. -/
inductive HttpResult where
  | response (status_code : Nat) (body : ApiJson)
  | requestException (msg : String)

/-- `datetime.utcfromtimestamp`: seconds since the epoch to a datetime. -/
def utcfromtimestamp (s : Nat) : Nat := s * usPerSec

/-- `WeatherAPI.base_url`. -/
def base_url : String := "http://api.openweathermap.org/data/2.5/weather?"

/-- The `complete_url` built by `WeatherAPI.get_weather`. -/
def complete_url (api_key city : String) : String :=
  base_url ++ "q=" ++ city ++ "&appid=" ++ api_key ++ "&units=metric"

/-- `WeatherAPI.get_weather` from `src/aws/aws_lambda.py`.  `resp` is the
outcome of its single `requests.get` call.  Returns the normalized record
dictionary (as a `WeatherData` value) on a well-formed 200 response, `none`
(plus an error log) on a non-200 status or a `requests.RequestException`, and
propagates a `KeyError` (`Except.error`) when a required key is missing from a
200 body. -/
def get_weather (city : String) (resp : HttpResult) :
    Except String (Option WeatherData × List String) :=
  match resp with
  | .response status_code body =>
    if status_code = 200 then
      match body.main_temp with
      | none => .error "KeyError: main.temp"
      | some temperature =>
        match body.weather_descr with
        | none => .error "KeyError: weather[0].description"
        | some weather_description =>
          let rain_last_hour := body.rain_1h.getD 0
          let rain_presence := decide (rain_last_hour > 0)
          match body.dt with
          | none => .error "KeyError: dt"
          | some timestamp =>
            match body.sys_country with
            | none => .error "KeyError: sys.country"
            | some country =>
              .ok (some ⟨country, city, temperature, rain_presence, weather_description,
                utcfromtimestamp timestamp⟩, [])
    else
      .ok (none, ["Error in the HTTP request"])
  | .requestException e =>
    .ok (none, ["An error occurred while making the request: " ++ e])

/-- The session operations inside `add_record`'s try block (`session.add`,
`session.commit`, `session.refresh`): the database engine either raises
(`db_error = some e`, nothing persisted) or commits exactly the one new
record. -/
def commit_record (db_error : Option String) (db : List WeatherData) (record : WeatherData) :
    Except String (List WeatherData) :=
  match db_error with
  | some e => .error e
  | none => .ok (db ++ [record])

/-- `DatabaseManager.add_record` from `src/aws/aws_lambda.py` /
`src/db_utils.py`: try the session operations; on any exception log
`"Database error: ..."` and roll back, leaving the table unchanged.  Total:
no exception escapes. -/
def add_record (db_error : Option String) (db : List WeatherData) (record : WeatherData) :
    List WeatherData × List String :=
  match commit_record db_error db record with
  | .ok db2 => (db2, [])
  | .error e => (db, ["Database error: " ++ e])

/-- `fetch_and_store_weather` from `src/aws/aws_lambda.py`.  `validation_fails`
is the verdict of the external pydantic validator on `WeatherData(**data)`
(a `ValidationError` is caught and logged); any other exception — e.g. a
`KeyError` out of `get_weather` — is caught by the outer handler and logged.
Total: the function always returns, never raises. -/
def fetch_and_store_weather (city : String) (resp : HttpResult) (validation_fails : Bool)
    (db_error : Option String) (db : List WeatherData) : List WeatherData × List String :=
  match get_weather city resp with
  | .error e => (db, ["Error processing " ++ city ++ ": " ++ e])
  | .ok (none, logs) => (db, logs)
  | .ok (some record, logs) =>
    if validation_fails then
      (db, logs ++ ["Validation error for " ++ city])
    else
      let res := add_record db_error db record
      (res.1, logs ++ res.2)

/-- The fixed city list of `lambda_handler`. -/
def cities : List String := ["Istanbul", "London", "Saint Petersburg", "Berlin", "Madrid",
  "Kyiv", "Rome", "Bucharest", "Paris", "Minsk", "Vienna", "Warsaw", "Hamburg", "Budapest",
  "Belgrade", "Barcelona", "Munich", "Kharkiv", "Milan"]

/-- The dictionary `lambda_handler` returns. -/
structure LambdaResult where
  statusCode : Nat
  body : String
  deriving DecidableEq

/-- The batch of `fetch_and_store_weather` tasks submitted to the
`ThreadPoolExecutor`, one per city of `cs`.  The tasks share no mutable state
and the executor's context manager waits for all of them; their effects are
folded over the database and log in submission order.  `world`,
`validation_fails` and `db_error` give each city's HTTP outcome, validation
verdict and database failure. -/
def runBatch (world : String → HttpResult) (validation_fails : String → Bool)
    (db_error : String → Option String) (cs : List String)
    (acc : List WeatherData × List String) : List WeatherData × List String :=
  cs.foldl (fun a city =>
    let res := fetch_and_store_weather city (world city) (validation_fails city)
      (db_error city) a.1
    (res.1, a.2 ++ res.2)) acc

/-- `lambda_handler` from `src/aws/aws_lambda.py`: submit one task per city of
`cities`, then return `{"statusCode": 200, "body": ...}` (no task raises, so
the 500 branch of its try/except is unreachable in the model). -/
def lambda_handler (world : String → HttpResult) (validation_fails : String → Bool)
    (db_error : String → Option String) :
    LambdaResult × List WeatherData × List String :=
  let res := runBatch world validation_fails db_error cities ([], [])
  (⟨200, "Weather data updated successfully"⟩, res.1, res.2)

/-- The HTTP requests issued by one invocation of `get_weather`: exactly the
single `requests.get(complete_url)` call. -/
def get_weather_requests (api_key city : String) : List String := [complete_url api_key city]

/-- The HTTP requests issued by one `fetch_and_store_weather` task: those of
its single `get_weather` call. -/
def fetch_and_store_requests (api_key city : String) : List String :=
  get_weather_requests api_key city

/-- The outbound HTTP requests of one `lambda_handler` invocation: one
`fetch_and_store_weather` task is submitted per city of `cities`. -/
def lambda_handler_requests (api_key : String) : List String :=
  (cities.map (fun c => fetch_and_store_requests api_key c)).flatten

/-- Which of the four canned aggregate queries `fetch_weather_stats` ran,
with its result. -/
inductive QueryRun where
  | countriesQ (rows : List (String × Rat × Rat × Rat))
  | citiesQ (rows : List (String × Rat × Rat × Rat))
  | extremesQ (res : Option (String × Rat))
  | rainQ (n : Nat)
  deriving DecidableEq

/-- `fetch_weather_stats` from `src/main.py`: dispatch `data_type` to one of
the four reporting queries (logging its rows), or log
`'Invalid data type specified.'` and run no query.  The returned pair is the
query that ran (if any) and the error log. -/
def fetch_weather_stats (stddev : List Rat → Rat) (table : List WeatherData)
    (data_type date_filter temp_extreme : String) (now selected_hour : Nat) :
    Except String (Option QueryRun × List String) :=
  if data_type = "countries" then
    (get_countries_stats stddev table date_filter now selected_hour).map
      (fun stats => (some (.countriesQ stats), []))
  else if data_type = "cities" then
    (get_cities_stats stddev table date_filter now selected_hour).map
      (fun stats => (some (.citiesQ stats), []))
  else if data_type = "extremes" then
    (get_temperature_extremes table date_filter temp_extreme now selected_hour).map
      (fun extremes => (some (.extremesQ extremes), []))
  else if data_type = "rain" then
    (count_rain_hours table date_filter now selected_hour).map
      (fun counted_rain => (some (.rainQ counted_rain), []))
  else
    .ok (none, ["Invalid data type specified."])

/-! ## Helper lemmas -/

theorem usPerDay_pos : 0 < usPerDay := by norm_num [usPerDay]

theorem replaceMidnight_le (t : Nat) : replaceMidnight t ≤ t := Nat.div_mul_le_self t usPerDay

theorem lt_replaceMidnight_add (t : Nat) : t < replaceMidnight t + usPerDay := by
  simp only [replaceMidnight, usPerDay]
  omega

theorem replaceMidnight_mod (t : Nat) : replaceMidnight t % usPerDay = 0 :=
  Nat.mul_mod_left (t / usPerDay) usPerDay

theorem weekday_start_monday (now : Nat) (h : usPerDay * 7 ≤ now) :
    weekday (replaceMidnight (now - weekday now * usPerDay)) = 0 := by
  simp only [weekday, replaceMidnight, usPerDay] at h ⊢
  omega

/-! ## C1 -/

/-- C1: each of the five named date filters yields the expected `(start, end)` window,
with the end equal to the start plus the named duration.  `today` starts at today's
midnight (`s % usPerDay = 0`, `s ≤ now < s + usPerDay`); `yesterday` at yesterday's
midnight; `current_week` at the most recent Monday midnight (`weekday s = 0`,
`s ≤ now < s + 7 days`); `last_seven_days` ends at the upcoming midnight `e`
(`now < e ≤ now + 1 day`) and starts seven days before it; `selected_hour` starts at
the hour parsed from the interactive input and spans one hour. -/
theorem parse_date_filter_named_filters (now sel : Nat) (h : usPerDay * 7 ≤ now) :
    (∃ s, parse_date_filter "today" now sel = .ok (s, s + usPerDay) ∧
      s % usPerDay = 0 ∧ s ≤ now ∧ now < s + usPerDay) ∧
    (∃ s, parse_date_filter "yesterday" now sel = .ok (s, s + usPerDay) ∧
      s % usPerDay = 0 ∧ s + usPerDay ≤ now ∧ now < s + 2 * usPerDay) ∧
    (∃ s, parse_date_filter "current_week" now sel = .ok (s, s + 7 * usPerDay) ∧
      s % usPerDay = 0 ∧ weekday s = 0 ∧ s ≤ now ∧ now < s + 7 * usPerDay) ∧
    (∃ e, parse_date_filter "last_seven_days" now sel = .ok (e - 7 * usPerDay, e) ∧
      e % usPerDay = 0 ∧ now < e ∧ e ≤ now + usPerDay ∧ e - 7 * usPerDay + 7 * usPerDay = e) ∧
    parse_date_filter "selected_hour" now sel = .ok (sel, sel + usPerHour) := by
  refine ⟨⟨replaceMidnight now, ?_, replaceMidnight_mod now, replaceMidnight_le now,
      lt_replaceMidnight_add now⟩,
    ⟨replaceMidnight (now - usPerDay), ?_, replaceMidnight_mod _, ?_⟩,
    ⟨replaceMidnight (now - weekday now * usPerDay), ?_, replaceMidnight_mod _,
      weekday_start_monday now h, ?_⟩,
    ⟨replaceMidnight (now + usPerDay), ?_, replaceMidnight_mod _, ?_⟩, ?_⟩
  · simp [parse_date_filter, date_range]
  · simp [parse_date_filter, date_range]
  · constructor
    · simp only [replaceMidnight, usPerDay] at h ⊢
      omega
    · simp only [replaceMidnight, usPerDay] at h ⊢
      omega
  · simp [parse_date_filter, date_range]
  · constructor
    · simp only [replaceMidnight, weekday, usPerDay] at h ⊢
      omega
    · simp only [replaceMidnight, weekday, usPerDay] at h ⊢
      omega
  · have h7 : replaceMidnight (now + usPerDay) - 7 * usPerDay + 7 * usPerDay =
        replaceMidnight (now + usPerDay) := by
      simp only [replaceMidnight, usPerDay] at h ⊢
      omega
    simp [parse_date_filter, date_range, h7]
  · refine ⟨?_, ?_, ?_⟩
    · simp only [replaceMidnight, usPerDay] at h ⊢
      omega
    · simp only [replaceMidnight, usPerDay] at h ⊢
      omega
    · simp only [replaceMidnight, usPerDay] at h ⊢
      omega
  · simp [parse_date_filter, date_range]

/-- Witness for C1 at a concrete clock value (October 2025 in microseconds). -/
theorem parse_date_filter_named_filters_witness :
    usPerDay * 7 ≤ 1760000000000000 ∧
    (∃ s, parse_date_filter "today" 1760000000000000 0 = .ok (s, s + usPerDay) ∧
      s % usPerDay = 0 ∧ s ≤ 1760000000000000 ∧ 1760000000000000 < s + usPerDay) :=
  ⟨by norm_num [usPerDay],
    (parse_date_filter_named_filters 1760000000000000 0 (by norm_num [usPerDay])).1⟩

/-! ## C10 -/

/-- C10: every string outside the five named filters makes `parse_date_filter`
raise `ValueError("Invalid date filter")`, and the raise propagates out of
`query_stats`, `get_temperature_extremes` and `count_rain_hours`. -/
theorem parse_date_filter_invalid_raises (df : String) (now sel : Nat)
    (h1 : df ≠ "selected_hour") (h2 : df ≠ "today") (h3 : df ≠ "yesterday")
    (h4 : df ≠ "current_week") (h5 : df ≠ "last_seven_days") :
    parse_date_filter df now sel = .error "Invalid date filter" ∧
    (∀ stddev table f,
      query_stats stddev table f df now sel = .error "Invalid date filter") ∧
    (∀ table te,
      get_temperature_extremes table df te now sel = .error "Invalid date filter") ∧
    (∀ table, count_rain_hours table df now sel = .error "Invalid date filter") := by
  have hp : parse_date_filter df now sel = .error "Invalid date filter" := by
    simp [parse_date_filter, h1, h2, h3, h4, h5]
  refine ⟨hp, fun stddev table f => ?_, fun table te => ?_, fun table => ?_⟩
  · simp [query_stats, hp, Bind.bind, Except.bind]
  · simp [get_temperature_extremes, hp, Bind.bind, Except.bind]
  · simp [count_rain_hours, hp, Bind.bind, Except.bind]

/-- Witness for C10 at the unrecognised filter string `"weekly"`. -/
theorem parse_date_filter_invalid_raises_witness :
    parse_date_filter "weekly" 0 0 = .error "Invalid date filter" :=
  (parse_date_filter_invalid_raises "weekly" 0 0 (by decide) (by decide) (by decide)
    (by decide) (by decide)).1

/-! ## C5 -/

/-- C5: `add_record` either commits exactly the one new record (appending it to
the table, logging nothing), or, when the database raises, logs
`"Database error: ..."` and rolls back, leaving the table unchanged; being a
total function into a plain pair (unlike `commit_record`), it propagates no
exception. -/
theorem add_record_commit_or_rollback (db_error : Option String)
    (db : List WeatherData) (record : WeatherData) :
    ((add_record db_error db record).1 = db ++ [record] ∨
      (add_record db_error db record).1 = db) ∧
    (db_error = none → add_record db_error db record = (db ++ [record], [])) ∧
    (∀ e, db_error = some e →
      add_record db_error db record = (db, ["Database error: " ++ e])) := by
  refine ⟨?_, ?_, ?_⟩
  · cases db_error with
    | none => left; rfl
    | some e => right; rfl
  · rintro rfl; rfl
  · rintro e rfl; rfl

/-- Witness for C5: the commit case and the rollback case at a concrete record. -/
theorem add_record_commit_or_rollback_witness :
    add_record none [] ⟨"LT", "Vilnius", 5, false, "clear sky", 0⟩ =
      ([⟨"LT", "Vilnius", 5, false, "clear sky", 0⟩], []) ∧
    add_record (some "disk full") [] ⟨"LT", "Vilnius", 5, false, "clear sky", 0⟩ =
      ([], ["Database error: " ++ "disk full"]) :=
  ⟨(add_record_commit_or_rollback none [] ⟨"LT", "Vilnius", 5, false, "clear sky", 0⟩).2.1 rfl,
   (add_record_commit_or_rollback (some "disk full") []
      ⟨"LT", "Vilnius", 5, false, "clear sky", 0⟩).2.2 "disk full" rfl⟩

/-! ## C4 -/

/-- C4: `get_weather` returns `None` — a returned failure indicator, not a raised
exception — on every non-200 status and on every `requests.RequestException`,
and returns a populated record (country, city, temperature, rain_presence,
weather_description, weather_data_date, all derived from the response body)
only on a 200 response. -/
theorem get_weather_failure_indicator (city : String) (resp : HttpResult) :
    (∀ status body, resp = .response status body → status ≠ 200 →
      get_weather city resp = .ok (none, ["Error in the HTTP request"])) ∧
    (∀ e, resp = .requestException e →
      get_weather city resp =
        .ok (none, ["An error occurred while making the request: " ++ e])) ∧
    (∀ record logs, get_weather city resp = .ok (some record, logs) →
      ∃ body, resp = .response 200 body ∧
        body.sys_country = some record.country ∧
        record.city = city ∧
        body.main_temp = some record.temperature ∧
        record.rain_presence = decide (body.rain_1h.getD 0 > 0) ∧
        body.weather_descr = some record.weather_description ∧
        ∃ ts, body.dt = some ts ∧ record.weather_data_date = utcfromtimestamp ts) := by
  refine ⟨?_, ?_, ?_⟩
  · rintro status body rfl hne
    simp [get_weather, hne]
  · rintro e rfl
    simp [get_weather]
  · intro record logs hgw
    cases resp with
    | requestException e => simp [get_weather] at hgw
    | response status body =>
      by_cases hs : status = 200
      · subst hs
        refine ⟨body, rfl, ?_⟩
        cases hmt : body.main_temp with
        | none => simp [get_weather, hmt] at hgw
        | some temperature =>
          cases hwd : body.weather_descr with
          | none => simp [get_weather, hmt, hwd] at hgw
          | some wd =>
            cases hdt : body.dt with
            | none => simp [get_weather, hmt, hwd, hdt] at hgw
            | some ts =>
              cases hsc : body.sys_country with
              | none => simp [get_weather, hmt, hwd, hdt, hsc] at hgw
              | some country =>
                simp [get_weather, hmt, hwd, hdt, hsc] at hgw
                obtain ⟨hrec, hlogs⟩ := hgw
                subst hrec
                exact ⟨rfl, rfl, rfl, rfl, rfl, ts, rfl, rfl⟩
      · simp [get_weather, hs] at hgw

/-- Witness for C4: a 404 response yields the `None` failure indicator. -/
theorem get_weather_failure_indicator_witness :
    get_weather "Paris" (.response 404 ⟨none, none, none, none, none⟩) =
      .ok (none, ["Error in the HTTP request"]) :=
  (get_weather_failure_indicator "Paris"
    (.response 404 ⟨none, none, none, none, none⟩)).1 404
    ⟨none, none, none, none, none⟩ rfl (by decide)

/-! ## C3 -/

theorem fetch_and_store_db_mono (city : String) (resp : HttpResult) (vf : Bool)
    (dbe : Option String) (db : List WeatherData) (x : WeatherData) (hx : x ∈ db) :
    x ∈ (fetch_and_store_weather city resp vf dbe db).1 := by
  cases hget : get_weather city resp with
  | error e => simp [fetch_and_store_weather, hget]; exact hx
  | ok p =>
    obtain ⟨orec, logs⟩ := p
    cases orec with
    | none => simp [fetch_and_store_weather, hget]; exact hx
    | some record =>
      by_cases hv : vf
      · simp [fetch_and_store_weather, hget, hv]; exact hx
      · cases dbe with
        | none =>
          simp [fetch_and_store_weather, hget, hv, add_record, commit_record]
          exact Or.inl hx
        | some e =>
          simp [fetch_and_store_weather, hget, hv, add_record, commit_record]
          exact hx

theorem fetch_and_store_success (city : String) (resp : HttpResult)
    (record : WeatherData) (logs : List String) (db : List WeatherData)
    (hget : get_weather city resp = .ok (some record, logs)) :
    fetch_and_store_weather city resp false none db = (db ++ [record], logs) := by
  simp [fetch_and_store_weather, hget, add_record, commit_record]

theorem fetch_and_store_validation_error (city : String) (resp : HttpResult)
    (record : WeatherData) (logs : List String) (dbe : Option String)
    (db : List WeatherData)
    (hget : get_weather city resp = .ok (some record, logs)) :
    fetch_and_store_weather city resp true dbe db =
      (db, logs ++ ["Validation error for " ++ city]) := by
  simp [fetch_and_store_weather, hget]

theorem fetch_and_store_db_failure (city : String) (resp : HttpResult)
    (record : WeatherData) (logs : List String) (e : String) (db : List WeatherData)
    (hget : get_weather city resp = .ok (some record, logs)) :
    fetch_and_store_weather city resp false (some e) db =
      (db, logs ++ ["Database error: " ++ e]) := by
  simp [fetch_and_store_weather, hget, add_record, commit_record]

theorem runBatch_cons (world : String → HttpResult) (vf : String → Bool)
    (dbe : String → Option String) (c : String) (cs : List String)
    (acc : List WeatherData × List String) :
    runBatch world vf dbe (c :: cs) acc =
      runBatch world vf dbe cs
        ((fetch_and_store_weather c (world c) (vf c) (dbe c) acc.1).1,
          acc.2 ++ (fetch_and_store_weather c (world c) (vf c) (dbe c) acc.1).2) := by
  simp [runBatch]

theorem runBatch_preserves (world : String → HttpResult) (vf : String → Bool)
    (dbe : String → Option String) (cs : List String)
    (acc : List WeatherData × List String) (x : WeatherData) (hx : x ∈ acc.1) :
    x ∈ (runBatch world vf dbe cs acc).1 := by
  induction cs generalizing acc with
  | nil => simpa [runBatch] using hx
  | cons c cs ih =>
    rw [runBatch_cons]
    exact ih _ (fetch_and_store_db_mono c (world c) (vf c) (dbe c) acc.1 x hx)

theorem runBatch_success_mem (world : String → HttpResult) (vf : String → Bool)
    (dbe : String → Option String) (cs : List String)
    (acc : List WeatherData × List String) (city : String) (record : WeatherData)
    (logs : List String) (hc : city ∈ cs)
    (hget : get_weather city (world city) = .ok (some record, logs))
    (hv : vf city = false) (hdbe : dbe city = none) :
    record ∈ (runBatch world vf dbe cs acc).1 := by
  induction cs generalizing acc with
  | nil => cases hc
  | cons c cs ih =>
    rw [runBatch_cons]
    rcases List.mem_cons.mp hc with rfl | hc2
    · apply runBatch_preserves
      simp only [hv, hdbe, fetch_and_store_success city (world city) record logs acc.1 hget]
      simp
    · exact ih _ hc2

/-- C3: per-city error isolation.  Whatever each city's HTTP outcome, validation
verdict and database behaviour are, `lambda_handler` returns statusCode 200; a
failed validation or a failed insert only logs an error and leaves the table
unchanged (`fetch_and_store_weather` returns a value, it never raises); and every
city whose fetch, validation and insert succeed has its record persisted,
regardless of the other cities' failures. -/
theorem batch_error_isolation (world : String → HttpResult) (vf : String → Bool)
    (dbe : String → Option String) :
    (lambda_handler world vf dbe).1 = ⟨200, "Weather data updated successfully"⟩ ∧
    (∀ city resp record logs db,
      get_weather city resp = .ok (some record, logs) →
      fetch_and_store_weather city resp true (dbe city) db =
        (db, logs ++ ["Validation error for " ++ city])) ∧
    (∀ city resp record logs e db,
      get_weather city resp = .ok (some record, logs) →
      fetch_and_store_weather city resp false (some e) db =
        (db, logs ++ ["Database error: " ++ e])) ∧
    (∀ city ∈ cities, ∀ record logs,
      get_weather city (world city) = .ok (some record, logs) →
      vf city = false → dbe city = none →
      record ∈ (lambda_handler world vf dbe).2.1) := by
  refine ⟨rfl, ?_, ?_, ?_⟩
  · intro city resp record logs db hget
    exact fetch_and_store_validation_error city resp record logs (dbe city) db hget
  · intro city resp record logs e db hget
    exact fetch_and_store_db_failure city resp record logs e db hget
  · intro city hc record logs hget hv hdbe
    simp only [lambda_handler]
    exact runBatch_success_mem world vf dbe cities ([], []) city record logs hc hget hv hdbe

/-- Witness for C3: with an all-200 world, Paris's record is persisted and the
handler returns 200. -/
theorem batch_error_isolation_witness :
    (⟨"FR", "Paris", 7, false, "cloudy", utcfromtimestamp 100⟩ : WeatherData) ∈
      (lambda_handler (fun _ => .response 200 ⟨some 7, some "cloudy", none, some 100, some "FR"⟩)
        (fun _ => false) (fun _ => none)).2.1 :=
  (batch_error_isolation
      (fun _ => .response 200 ⟨some 7, some "cloudy", none, some 100, some "FR"⟩)
      (fun _ => false) (fun _ => none)).2.2.2 "Paris" (by decide)
    ⟨"FR", "Paris", 7, false, "cloudy", utcfromtimestamp 100⟩ [] rfl rfl rfl

/-! ## C8 -/

theorem flatten_map_singleton (f : α → β) (l : List α) :
    (l.map (fun a => [f a])).flatten = l.map f := by
  induction l with
  | nil => rfl
  | cons a l ih => simp [ih]

/-- C8: one invocation of `lambda_handler` submits exactly one
`fetch_and_store_weather` task per city of its fixed 19-city list (the list has
no repeated city), each task issues exactly one outbound HTTP GET to that
city's URL, and so an invocation issues 19 ≤ 20 outbound requests in total. -/
theorem lambda_handler_request_bound (api_key : String) :
    cities.length = 19 ∧ cities.Nodup ∧
    (∀ c, (fetch_and_store_requests api_key c).length = 1) ∧
    lambda_handler_requests api_key = cities.map (fun c => complete_url api_key c) ∧
    (lambda_handler_requests api_key).length = 19 ∧ 19 ≤ 20 := by
  have hmap : lambda_handler_requests api_key =
      cities.map (fun c => complete_url api_key c) := by
    unfold lambda_handler_requests fetch_and_store_requests get_weather_requests
    exact flatten_map_singleton (fun c => complete_url api_key c) cities
  refine ⟨by decide, by decide, fun c => rfl, hmap, ?_, by norm_num⟩
  rw [hmap, List.length_map]
  decide

/-! ## C7 -/

/-- C7: `fetch_weather_stats` dispatches each `data_type` to exactly one of the
four canned aggregate queries — `"countries"` to the grouped statistics query
grouped by `country`, `"cities"` to the same query grouped by `city`,
`"extremes"` to the temperature-extreme query with the given `temp_extreme`,
`"rain"` to the rain-hour count — and on every other `data_type` runs no query
and logs `'Invalid data type specified.'`. -/
theorem fetch_weather_stats_dispatch (stddev : List Rat → Rat) (table : List WeatherData)
    (date_filter temp_extreme : String) (now sel : Nat) :
    (∀ r, fetch_weather_stats stddev table "countries" date_filter temp_extreme now sel =
        .ok (some (.countriesQ r), []) ↔
      query_stats stddev table (fun x => x.country) date_filter now sel = .ok r) ∧
    (∀ r, fetch_weather_stats stddev table "cities" date_filter temp_extreme now sel =
        .ok (some (.citiesQ r), []) ↔
      query_stats stddev table (fun x => x.city) date_filter now sel = .ok r) ∧
    (∀ x, fetch_weather_stats stddev table "extremes" date_filter temp_extreme now sel =
        .ok (some (.extremesQ x), []) ↔
      get_temperature_extremes table date_filter temp_extreme now sel = .ok x) ∧
    (∀ n, fetch_weather_stats stddev table "rain" date_filter temp_extreme now sel =
        .ok (some (.rainQ n), []) ↔
      count_rain_hours table date_filter now sel = .ok n) ∧
    (∀ data_type, data_type ≠ "countries" → data_type ≠ "cities" →
      data_type ≠ "extremes" → data_type ≠ "rain" →
      fetch_weather_stats stddev table data_type date_filter temp_extreme now sel =
        .ok (none, ["Invalid data type specified."])) := by
  refine ⟨fun r => ?_, fun r => ?_, fun x => ?_, fun n => ?_,
    fun data_type h1 h2 h3 h4 => ?_⟩
  · cases hq : query_stats stddev table (fun x => x.country) date_filter now sel with
    | error e => simp [fetch_weather_stats, get_countries_stats, hq, Except.map]
    | ok v => simp [fetch_weather_stats, get_countries_stats, hq, Except.map]
  · cases hq : query_stats stddev table (fun x => x.city) date_filter now sel with
    | error e => simp [fetch_weather_stats, get_cities_stats, hq, Except.map]
    | ok v => simp [fetch_weather_stats, get_cities_stats, hq, Except.map]
  · cases hq : get_temperature_extremes table date_filter temp_extreme now sel with
    | error e => simp [fetch_weather_stats, hq, Except.map]
    | ok v => simp [fetch_weather_stats, hq, Except.map]
  · cases hq : count_rain_hours table date_filter now sel with
    | error e => simp [fetch_weather_stats, hq, Except.map]
    | ok v => simp [fetch_weather_stats, hq, Except.map]
  · simp [fetch_weather_stats, h1, h2, h3, h4]

/-- Witness for C7: an unknown data type runs no query and logs the error. -/
theorem fetch_weather_stats_dispatch_witness :
    fetch_weather_stats (fun _ => 0) [] "bogus" "today" "max" 0 0 =
      .ok (none, ["Invalid data type specified."]) :=
  (fetch_weather_stats_dispatch (fun _ => 0) [] "today" "max" 0 0).2.2.2.2 "bogus"
    (by decide) (by decide) (by decide) (by decide)

/-! ## Aggregate lemmas -/

theorem foldl_max_mem (xs : List Rat) (a : Rat) :
    xs.foldl max a = a ∨ xs.foldl max a ∈ xs := by
  induction xs generalizing a with
  | nil => exact Or.inl rfl
  | cons x xs ih =>
    simp only [List.foldl_cons]
    rcases ih (max a x) with h | h
    · rcases max_choice a x with hm | hm
      · exact Or.inl (h.trans hm)
      · exact Or.inr (by rw [h, hm]; exact List.mem_cons_self x xs)
    · exact Or.inr (List.mem_cons_of_mem x h)

theorem le_foldl_max (xs : List Rat) (a : Rat) :
    a ≤ xs.foldl max a ∧ ∀ x ∈ xs, x ≤ xs.foldl max a := by
  induction xs generalizing a with
  | nil => exact ⟨le_refl a, by simp⟩
  | cons y ys ih =>
    simp only [List.foldl_cons]
    obtain ⟨h1, h2⟩ := ih (max a y)
    refine ⟨le_trans (le_max_left a y) h1, ?_⟩
    intro x hx
    rcases List.mem_cons.mp hx with rfl | hx2
    · exact le_trans (le_max_right a x) h1
    · exact h2 x hx2

theorem foldl_min_mem (xs : List Rat) (a : Rat) :
    xs.foldl min a = a ∨ xs.foldl min a ∈ xs := by
  induction xs generalizing a with
  | nil => exact Or.inl rfl
  | cons x xs ih =>
    simp only [List.foldl_cons]
    rcases ih (min a x) with h | h
    · rcases min_choice a x with hm | hm
      · exact Or.inl (h.trans hm)
      · exact Or.inr (by rw [h, hm]; exact List.mem_cons_self x xs)
    · exact Or.inr (List.mem_cons_of_mem x h)

theorem foldl_min_le (xs : List Rat) (a : Rat) :
    xs.foldl min a ≤ a ∧ ∀ x ∈ xs, xs.foldl min a ≤ x := by
  induction xs generalizing a with
  | nil => exact ⟨le_refl a, by simp⟩
  | cons y ys ih =>
    simp only [List.foldl_cons]
    obtain ⟨h1, h2⟩ := ih (min a y)
    refine ⟨le_trans h1 (min_le_left a y), ?_⟩
    intro x hx
    rcases List.mem_cons.mp hx with rfl | hx2
    · exact le_trans h1 (min_le_right a x)
    · exact h2 x hx2

theorem aggMax_mem (l : List Rat) (h : l ≠ []) : aggMax l ∈ l := by
  cases l with
  | nil => exact absurd rfl h
  | cons x xs =>
    show xs.foldl max x ∈ x :: xs
    rcases foldl_max_mem xs x with h1 | h1
    · rw [h1]; exact List.mem_cons_self x xs
    · exact List.mem_cons_of_mem x h1

theorem le_aggMax (l : List Rat) (x : Rat) (hx : x ∈ l) : x ≤ aggMax l := by
  cases l with
  | nil => cases hx
  | cons y ys =>
    show x ≤ ys.foldl max y
    rcases List.mem_cons.mp hx with rfl | h
    · exact (le_foldl_max ys x).1
    · exact (le_foldl_max ys y).2 x h

theorem aggMin_mem (l : List Rat) (h : l ≠ []) : aggMin l ∈ l := by
  cases l with
  | nil => exact absurd rfl h
  | cons x xs =>
    show xs.foldl min x ∈ x :: xs
    rcases foldl_min_mem xs x with h1 | h1
    · rw [h1]; exact List.mem_cons_self x xs
    · exact List.mem_cons_of_mem x h1

theorem aggMin_le (l : List Rat) (x : Rat) (hx : x ∈ l) : aggMin l ≤ x := by
  cases l with
  | nil => cases hx
  | cons y ys =>
    show ys.foldl min y ≤ x
    rcases List.mem_cons.mp hx with rfl | h
    · exact (foldl_min_le ys x).1
    · exact (foldl_min_le ys y).2 x h

theorem mem_groupTemps_of_mem (rows : List WeatherData) (f : WeatherData → String)
    (r : WeatherData) (hr : r ∈ rows) : r.temperature ∈ groupTemps rows f (f r) :=
  List.mem_map_of_mem _ (List.mem_filter.mpr ⟨hr, by simp⟩)

theorem groupTemps_mem_inv (rows : List WeatherData) (f : WeatherData → String)
    (g : String) (t : Rat) (ht : t ∈ groupTemps rows f g) :
    ∃ r ∈ rows, f r = g ∧ r.temperature = t := by
  unfold groupTemps at ht
  obtain ⟨r, hr, rfl⟩ := List.mem_map.mp ht
  obtain ⟨hr1, hr2⟩ := List.mem_filter.mp hr
  exact ⟨r, hr1, by simpa using hr2, rfl⟩

/-! ## C2 -/

/-- C2: `query_stats` returns exactly one tuple per distinct value of the
grouping field among the records whose `weather_data_date` lies in the parsed
window (no duplicate groups, and a group appears iff some in-window record has
that value); each tuple carries the group value, the maximum of the group's
temperatures (a group temperature that bounds the others from above), the
minimum, and the engine's `stddev` of the group's temperatures;
`get_cities_stats` and `get_countries_stats` are exactly this query grouped by
`city` and `country`. -/
theorem query_stats_grouped (stddev : List Rat → Rat) (table : List WeatherData)
    (f : WeatherData → String) (df : String) (now sel s e : Nat)
    (h : parse_date_filter df now sel = .ok (s, e)) :
    ∃ res, query_stats stddev table f df now sel = .ok res ∧
      (res.map Prod.fst).Nodup ∧
      (∀ g, g ∈ res.map Prod.fst ↔ ∃ r ∈ table, inWindow s e r = true ∧ f r = g) ∧
      (∀ p ∈ res,
        p.2.1 ∈ groupTemps (table.filter (inWindow s e)) f p.1 ∧
        (∀ t ∈ groupTemps (table.filter (inWindow s e)) f p.1, t ≤ p.2.1) ∧
        p.2.2.1 ∈ groupTemps (table.filter (inWindow s e)) f p.1 ∧
        (∀ t ∈ groupTemps (table.filter (inWindow s e)) f p.1, p.2.2.1 ≤ t) ∧
        p.2.2.2 = stddev (groupTemps (table.filter (inWindow s e)) f p.1)) ∧
      get_cities_stats stddev table df now sel =
        query_stats stddev table (fun r => r.city) df now sel ∧
      get_countries_stats stddev table df now sel =
        query_stats stddev table (fun r => r.country) df now sel := by
  refine ⟨(((table.filter (inWindow s e)).map f).dedup).map (fun g =>
      (g, aggMax (groupTemps (table.filter (inWindow s e)) f g),
        aggMin (groupTemps (table.filter (inWindow s e)) f g),
        stddev (groupTemps (table.filter (inWindow s e)) f g))),
    ?_, ?_, ?_, ?_, rfl, rfl⟩
  · simp [query_stats, h, Bind.bind, Except.bind, Pure.pure, Except.pure]
  · rw [List.map_map]
    have hcomp : (Prod.fst ∘ fun g : String =>
        (g, aggMax (groupTemps (table.filter (inWindow s e)) f g),
          aggMin (groupTemps (table.filter (inWindow s e)) f g),
          stddev (groupTemps (table.filter (inWindow s e)) f g))) = id := rfl
    rw [hcomp, List.map_id]
    exact List.nodup_dedup _
  · intro g
    rw [List.map_map]
    have hcomp : (Prod.fst ∘ fun g : String =>
        (g, aggMax (groupTemps (table.filter (inWindow s e)) f g),
          aggMin (groupTemps (table.filter (inWindow s e)) f g),
          stddev (groupTemps (table.filter (inWindow s e)) f g))) = id := rfl
    rw [hcomp, List.map_id]
    rw [List.mem_dedup, List.mem_map]
    constructor
    · rintro ⟨r, hr, rfl⟩
      obtain ⟨hr1, hr2⟩ := List.mem_filter.mp hr
      exact ⟨r, hr1, hr2, rfl⟩
    · rintro ⟨r, hr, hw, rfl⟩
      exact ⟨r, List.mem_filter.mpr ⟨hr, hw⟩, rfl⟩
  · intro p hp
    obtain ⟨g, hg, rfl⟩ := List.mem_map.mp hp
    have hne : groupTemps (table.filter (inWindow s e)) f g ≠ [] := by
      rw [List.mem_dedup, List.mem_map] at hg
      obtain ⟨r, hr, rfl⟩ := hg
      exact List.ne_nil_of_mem (mem_groupTemps_of_mem _ f r hr)
    exact ⟨aggMax_mem _ hne, fun t ht => le_aggMax _ t ht,
      aggMin_mem _ hne, fun t ht => aggMin_le _ t ht, rfl⟩

/-- Witness for C2: the grouped query on a one-row table under the `today`
filter. -/
theorem query_stats_grouped_witness :
    ∃ res, query_stats (fun _ => 0) [⟨"LT", "Vilnius", 5, true, "rain", 300000000000⟩]
        (fun r => r.city) "today" 300000000005 0 = .ok res ∧
      (res.map Prod.fst).Nodup ∧
      (∀ g, g ∈ res.map Prod.fst ↔
        ∃ r ∈ [(⟨"LT", "Vilnius", 5, true, "rain", 300000000000⟩ : WeatherData)],
          inWindow 259200000000 345600000000 r = true ∧ r.city = g) ∧
      (∀ p ∈ res,
        p.2.1 ∈ groupTemps ([(⟨"LT", "Vilnius", 5, true, "rain", 300000000000⟩ :
            WeatherData)].filter (inWindow 259200000000 345600000000))
          (fun r => r.city) p.1 ∧
        (∀ t ∈ groupTemps ([(⟨"LT", "Vilnius", 5, true, "rain", 300000000000⟩ :
            WeatherData)].filter (inWindow 259200000000 345600000000))
          (fun r => r.city) p.1, t ≤ p.2.1) ∧
        p.2.2.1 ∈ groupTemps ([(⟨"LT", "Vilnius", 5, true, "rain", 300000000000⟩ :
            WeatherData)].filter (inWindow 259200000000 345600000000))
          (fun r => r.city) p.1 ∧
        (∀ t ∈ groupTemps ([(⟨"LT", "Vilnius", 5, true, "rain", 300000000000⟩ :
            WeatherData)].filter (inWindow 259200000000 345600000000))
          (fun r => r.city) p.1, p.2.2.1 ≤ t) ∧
        p.2.2.2 = (fun _ => (0 : Rat))
          (groupTemps ([(⟨"LT", "Vilnius", 5, true, "rain", 300000000000⟩ :
            WeatherData)].filter (inWindow 259200000000 345600000000))
          (fun r => r.city) p.1)) ∧
      get_cities_stats (fun _ => 0) [⟨"LT", "Vilnius", 5, true, "rain", 300000000000⟩]
          "today" 300000000005 0 =
        query_stats (fun _ => 0) [⟨"LT", "Vilnius", 5, true, "rain", 300000000000⟩]
          (fun r => r.city) "today" 300000000005 0 ∧
      get_countries_stats (fun _ => 0) [⟨"LT", "Vilnius", 5, true, "rain", 300000000000⟩]
          "today" 300000000005 0 =
        query_stats (fun _ => 0) [⟨"LT", "Vilnius", 5, true, "rain", 300000000000⟩]
          (fun r => r.country) "today" 300000000005 0 :=
  query_stats_grouped (fun _ => 0) [⟨"LT", "Vilnius", 5, true, "rain", 300000000000⟩]
    (fun r => r.city) "today" 300000000005 0 259200000000 345600000000 rfl

/-! ## C6 -/

/-- C6: `count_rain_hours` returns the number of stored rows whose
`weather_data_date` lies in the parsed window and whose `rain_presence` is
true. -/
theorem count_rain_hours_correct (table : List WeatherData) (df : String)
    (now sel s e : Nat) (h : parse_date_filter df now sel = .ok (s, e)) :
    count_rain_hours table df now sel =
      .ok (table.countP (fun r =>
        decide (s ≤ r.weather_data_date) && decide (r.weather_data_date < e) &&
        r.rain_presence)) := by
  simp [count_rain_hours, h, inWindow, List.countP_eq_length_filter,
    Bind.bind, Except.bind, Pure.pure, Except.pure]

/-- Witness for C6: one rainy in-window row under the `today` filter. -/
theorem count_rain_hours_correct_witness :
    count_rain_hours [⟨"LT", "Vilnius", 5, true, "rain", 300000000000⟩]
        "today" 300000000005 0 =
      .ok ([(⟨"LT", "Vilnius", 5, true, "rain", 300000000000⟩ : WeatherData)].countP
        (fun r => decide (259200000000 ≤ r.weather_data_date) &&
          decide (r.weather_data_date < 345600000000) && r.rain_presence)) :=
  count_rain_hours_correct [⟨"LT", "Vilnius", 5, true, "rain", 300000000000⟩]
    "today" 300000000005 0 259200000000 345600000000 rfl

/-! ## C9 -/

theorem foldl_pick_min_mem {α : Type} (key : α → Rat) (xs : List α) (a : α) :
    xs.foldl (fun b y => if key y < key b then y else b) a = a ∨
    xs.foldl (fun b y => if key y < key b then y else b) a ∈ xs := by
  induction xs generalizing a with
  | nil => exact Or.inl rfl
  | cons x xs ih =>
    simp only [List.foldl_cons]
    by_cases h : key x < key a
    · rw [if_pos h]
      rcases ih x with h1 | h1
      · exact Or.inr (by rw [h1]; exact List.mem_cons_self x xs)
      · exact Or.inr (List.mem_cons_of_mem x h1)
    · rw [if_neg h]
      rcases ih a with h1 | h1
      · exact Or.inl h1
      · exact Or.inr (List.mem_cons_of_mem x h1)

theorem foldl_pick_min_le {α : Type} (key : α → Rat) (xs : List α) (a : α) :
    key (xs.foldl (fun b y => if key y < key b then y else b) a) ≤ key a ∧
    ∀ y ∈ xs, key (xs.foldl (fun b y => if key y < key b then y else b) a) ≤ key y := by
  induction xs generalizing a with
  | nil => exact ⟨le_refl _, by simp⟩
  | cons x xs ih =>
    simp only [List.foldl_cons]
    by_cases h : key x < key a
    · rw [if_pos h]
      obtain ⟨h1, h2⟩ := ih x
      refine ⟨le_trans h1 (le_of_lt h), ?_⟩
      intro y hy
      rcases List.mem_cons.mp hy with rfl | hy2
      · exact h1
      · exact h2 y hy2
    · rw [if_neg h]
      obtain ⟨h1, h2⟩ := ih a
      refine ⟨h1, ?_⟩
      intro y hy
      rcases List.mem_cons.mp hy with rfl | hy2
      · exact le_trans h1 (not_lt.mp h)
      · exact h2 y hy2

theorem firstAsc_eq_some {α : Type} (key : α → Rat) (l : List α) (a : α)
    (h : firstAsc key l = some a) : a ∈ l ∧ ∀ b ∈ l, key a ≤ key b := by
  cases l with
  | nil => simp [firstAsc] at h
  | cons x xs =>
    simp only [firstAsc, Option.some.injEq] at h
    subst h
    constructor
    · rcases foldl_pick_min_mem key xs x with h1 | h1
      · rw [h1]; exact List.mem_cons_self x xs
      · exact List.mem_cons_of_mem x h1
    · intro b hb
      obtain ⟨h1, h2⟩ := foldl_pick_min_le key xs x
      rcases List.mem_cons.mp hb with rfl | hb2
      · exact h1
      · exact h2 b hb2

theorem firstAsc_of_ne_nil {α : Type} (key : α → Rat) (l : List α) (h : l ≠ []) :
    ∃ a, firstAsc key l = some a := by
  cases l with
  | nil => exact absurd rfl h
  | cons x xs => exact ⟨_, rfl⟩

/-- C9: any `temp_extreme` other than the exact string `"max"` (`"MAX"`,
misspellings, anything else) behaves exactly as `"min"`: the query aggregates
`min(temperature)` per city, orders ascending, and the returned pair carries a
temperature attained by some in-window row of that city and no greater than any
in-window row's temperature (the lowest per-city minimum); moreover a nonempty
window always produces a row. -/
theorem get_temperature_extremes_non_max (table : List WeatherData)
    (df te : String) (now sel : Nat) (hte : te ≠ "max") :
    get_temperature_extremes table df te now sel =
      get_temperature_extremes table df "min" now sel ∧
    ∀ s e, parse_date_filter df now sel = .ok (s, e) →
      ((∃ r ∈ table, inWindow s e r = true) →
        ∃ c t, get_temperature_extremes table df te now sel = .ok (some (c, t))) ∧
      (∀ c t, get_temperature_extremes table df te now sel = .ok (some (c, t)) →
        (∃ r ∈ table, inWindow s e r = true ∧ r.city = c ∧ r.temperature = t) ∧
        (∀ r ∈ table, inWindow s e r = true → t ≤ r.temperature)) := by
  constructor
  · simp [get_temperature_extremes, hte]
  · intro s e hparse
    have hx : get_temperature_extremes table df te now sel =
        .ok (firstAsc (fun p : String × Rat => p.2)
          (((table.filter (inWindow s e)).map (fun r => r.city)).dedup.map
            (fun c => (c, aggMin (groupTemps (table.filter (inWindow s e))
              (fun r => r.city) c))))) := by
      simp [get_temperature_extremes, hparse, hte, Bind.bind, Except.bind,
        Pure.pure, Except.pure]
    constructor
    · rintro ⟨r, hr, hw⟩
      have hkeys : r.city ∈ ((table.filter (inWindow s e)).map (fun r => r.city)).dedup :=
        List.mem_dedup.mpr (List.mem_map_of_mem _ (List.mem_filter.mpr ⟨hr, hw⟩))
      have hg : (r.city, aggMin (groupTemps (table.filter (inWindow s e))
          (fun r => r.city) r.city)) ∈
          ((table.filter (inWindow s e)).map (fun r => r.city)).dedup.map
            (fun c => (c, aggMin (groupTemps (table.filter (inWindow s e))
              (fun r => r.city) c))) :=
        List.mem_map_of_mem _ hkeys
      obtain ⟨a, ha⟩ := firstAsc_of_ne_nil (fun p : String × Rat => p.2) _
        (List.ne_nil_of_mem hg)
      exact ⟨a.1, a.2, by rw [hx, ha]⟩
    · intro c t hct
      rw [hx] at hct
      have hfa : firstAsc (fun p : String × Rat => p.2)
          (((table.filter (inWindow s e)).map (fun r => r.city)).dedup.map
            (fun c => (c, aggMin (groupTemps (table.filter (inWindow s e))
              (fun r => r.city) c)))) = some (c, t) := by
        simpa using hct
      obtain ⟨hmem, hbound⟩ := firstAsc_eq_some _ _ _ hfa
      obtain ⟨g, hgkeys, hpair⟩ := List.mem_map.mp hmem
      obtain ⟨rfl, hmin⟩ : g = c ∧ aggMin (groupTemps (table.filter (inWindow s e))
          (fun r => r.city) g) = t := by
        simpa [Prod.ext_iff] using hpair
      constructor
      · have hne : groupTemps (table.filter (inWindow s e)) (fun r => r.city) g ≠ [] := by
          rw [List.mem_dedup, List.mem_map] at hgkeys
          obtain ⟨r0, hr0, hcity⟩ := hgkeys
          have hmm := mem_groupTemps_of_mem (table.filter (inWindow s e))
            (fun r => r.city) r0 hr0
          rw [show (fun r : WeatherData => r.city) r0 = g from hcity] at hmm
          exact List.ne_nil_of_mem hmm
        have ht : t ∈ groupTemps (table.filter (inWindow s e)) (fun r => r.city) g := by
          rw [← hmin]
          exact aggMin_mem _ hne
        obtain ⟨r, hr, hrc, hrt⟩ := groupTemps_mem_inv _ _ _ _ ht
        obtain ⟨hr1, hr2⟩ := List.mem_filter.mp hr
        exact ⟨r, hr1, hr2, hrc, hrt⟩
      · intro r hr hw
        have hk : r.city ∈ ((table.filter (inWindow s e)).map (fun x => x.city)).dedup :=
          List.mem_dedup.mpr (List.mem_map_of_mem _ (List.mem_filter.mpr ⟨hr, hw⟩))
        have hgmem : (r.city, aggMin (groupTemps (table.filter (inWindow s e))
            (fun x => x.city) r.city)) ∈
            ((table.filter (inWindow s e)).map (fun x => x.city)).dedup.map
              (fun c => (c, aggMin (groupTemps (table.filter (inWindow s e))
                (fun x => x.city) c))) :=
          List.mem_map_of_mem _ hk
        have h1 : t ≤ aggMin (groupTemps (table.filter (inWindow s e))
            (fun x => x.city) r.city) := hbound _ hgmem
        have h2 : aggMin (groupTemps (table.filter (inWindow s e))
            (fun x => x.city) r.city) ≤ r.temperature :=
          aggMin_le _ _ (mem_groupTemps_of_mem _ _ r (List.mem_filter.mpr ⟨hr, hw⟩))
        exact le_trans h1 h2

/-- Witness for C9: the string `"MAX"` is treated as `"min"`. -/
theorem get_temperature_extremes_non_max_witness :
    get_temperature_extremes [] "today" "MAX" 0 0 =
      get_temperature_extremes [] "today" "min" 0 0 :=
  (get_temperature_extremes_non_max [] "today" "MAX" 0 0 (by decide)).1

end WeatherSpec
